import Mathlib

/-!
Shallow embedding of the chat backend in src/index.js: the Mongo collections
(Conversation, Message, Attachment) become lists inside a `DB` record, each
Express handler becomes a pure function from a `DB` and its request data to a
response paired with the successor `DB`.  External effects (the clock, the
freshly generated identifiers, the Gemini HTTP call) enter as explicit
parameters; the Gemini response body is modelled structurally so that the
JavaScript property-access chain `data.candidates[0].content.parts[0].text`
(which throws on a missing step and lands in the catch block) is an `Except`.
-/

namespace ChatBackend

/-- One document of the Conversation collection (conversationSchema,
src/index.js lines 26-33). -/
structure Conv where
  sessionId : String
  userId : Option String
  title : String
  createdAt : Nat
  updatedAt : Nat
  isDeleted : Bool
  deriving Repr, DecidableEq

/-- One document of the Message collection (messageSchema, lines 35-42).
Attachment references are the id strings supplied by the client. -/
structure Msg where
  id : Nat
  sessionId : String
  role : String
  content : String
  attachments : List String
  senderAi : Option String
  createdAt : Nat
  deriving Repr, DecidableEq

/-- One document of the Attachment collection (attachmentSchema, lines 44-52).
The source field filePath is embedded as storagePath. -/
structure AttachmentRec where
  id : String
  sessionId : Option String
  messageId : Option Nat
  fileName : String
  fileType : String
  fileSize : Nat
  storagePath : String
  uploadedAt : Nat
  deriving Repr, DecidableEq

/-- The durable store: the three Mongo collections plus a counter from which
fresh Message ids are drawn. -/
structure DB where
  conversations : List Conv
  messages : List Msg
  attachments : List AttachmentRec
  nextId : Nat
  deriving Repr, DecidableEq

def initDB : DB := { conversations := [], messages := [], attachments := [], nextId := 0 }

/-! Gemini response body, one level of `Option` per property that may be
absent in the JSON.  Accessing a property of an absent (undefined) value
throws in JavaScript; the extraction function below returns `Except.error`
exactly on those paths. -/

structure GeminiPart where
  text : Option String
  deriving Repr, DecidableEq

structure GeminiContent where
  parts : Option (List GeminiPart)
  deriving Repr, DecidableEq

structure GeminiCandidate where
  content : Option GeminiContent
  deriving Repr, DecidableEq

structure GeminiData where
  candidates : Option (List GeminiCandidate)
  deriving Repr, DecidableEq

/-- The fixed placeholder substituted for an empty reply (line 129). -/
def emptyReplyPlaceholder : String := "（无回复）"

/-- Evaluation of `geminiRes.data.candidates[0].content.parts[0].text || '（无回复）'`
(line 129).  Each missing step of the chain throws (modelled as `.error ()`),
while a present-but-empty `text` (undefined or the empty string, both falsy)
falls to the placeholder via `||`. -/
def extractGeminiText (d : GeminiData) : Except Unit String :=
  match d.candidates with
  | none => .error ()
  | some cs =>
    match cs.head? with
    | none => .error ()
    | some c =>
      match c.content with
      | none => .error ()
      | some ct =>
        match ct.parts with
        | none => .error ()
        | some ps =>
          match ps.head? with
          | none => .error ()
          | some p =>
            match p.text with
            | none => .ok emptyReplyPlaceholder
            | some t => .ok (if t = "" then emptyReplyPlaceholder else t)

/-- Outcome of the axios call: `.error` is a transport failure (the await
throws), `.ok` is a 2xx response with the parsed JSON body. -/
def gatewayText (gw : Except Unit GeminiData) : Except Unit String :=
  match gw with
  | .error _ => .error ()
  | .ok d => extractGeminiText d

/-- A well-formed provider body whose reply text is the word ok; used to
exercise the successful turn on concrete inputs. -/
def sampleOkBody : GeminiData := ⟨some [⟨some ⟨some [⟨some "ok"⟩]⟩⟩]⟩

/-- A well-formed provider body whose reply text is present but empty. -/
def sampleEmptyBody : GeminiData := ⟨some [⟨some ⟨some [⟨some ""⟩]⟩⟩]⟩

/-- The uniform response envelope { code, msg, data } together with the HTTP
status the handler set. -/
structure ApiResp (α : Type) where
  status : Nat
  code : Nat
  msg : String
  data : Option α
  deriving Repr

/-- Success payload of POST /api/gemini3/chat (lines 149-155). -/
structure ChatData where
  sessionId : String
  messageId : Nat
  role : String
  content : String
  createdAt : Nat
  deriving Repr, DecidableEq

/-- Conversation.updateOne with upsert (lines 140-144): update the first
document matching the sessionId. -/
def setConvFirst (sid title : String) (now : Nat) : List Conv → List Conv
  | [] => []
  | c :: cs =>
    if c.sessionId = sid then { c with title := title, updatedAt := now } :: cs
    else c :: setConvFirst sid title now cs

/-- Upsert: update the matching Conversation if one exists, otherwise insert a
fresh document carrying the query key, the $set fields and the schema
defaults. -/
def upsertConv (cs : List Conv) (sid title : String) (now : Nat) : List Conv :=
  if cs.any (fun c => c.sessionId == sid) then setConvFirst sid title now cs
  else
    cs ++ [{ sessionId := sid, userId := none, title := title,
             createdAt := now, updatedAt := now, isDeleted := false }]

/-- The user Message persisted at line 114-119: attachments pass through
filter(Boolean), which drops falsy entries (for id strings, the empty
string). -/
def mkUserMsg (db : DB) (sid msg : String) (atts : List String) (t1 : Nat) : Msg :=
  { id := db.nextId, sessionId := sid, role := "user", content := msg,
    attachments := atts.filter (fun a => a != ""), senderAi := none, createdAt := t1 }

/-- POST /api/gemini3/chat (lines 108-161).  Parameters beyond the request
body: the gateway outcome `gw`, the clock readings `t1` (user Message
creation), `t2` (reply Message creation) and `t3` (the `new Date()` of the
upsert).  Absent sessionId or message are falsy like the empty string, so
both are modelled as the empty string. -/
def chatHandler (db : DB) (sid msg : String) (atts : List String)
    (gw : Except Unit GeminiData) (t1 t2 t3 : Nat) : ApiResp ChatData × DB :=
  if sid = "" ∨ msg = "" then
    ({ status := 400, code := 400, msg := "sessionId 和 message 必填", data := none }, db)
  else
    let userMsg := mkUserMsg db sid msg atts t1
    let db1 : DB := { db with messages := db.messages ++ [userMsg], nextId := db.nextId + 1 }
    match gatewayText gw with
    | .error _ =>
      ({ status := 500, code := 500, msg := "Gemini3 服务异常", data := none }, db1)
    | .ok text =>
      let gMsg : Msg :=
        { id := db1.nextId, sessionId := sid, role := "gemini3", content := text,
          attachments := [], senderAi := some "gemini-1.5-pro", createdAt := t2 }
      let db2 : DB := { db1 with messages := db1.messages ++ [gMsg], nextId := db1.nextId + 1 }
      let db3 : DB := { db2 with
        conversations := upsertConv db2.conversations sid (msg.take 30) t3 }
      ({ status := 200, code := 0, msg := "success",
         data := some { sessionId := sid, messageId := gMsg.id, role := "gemini3",
                        content := text, createdAt := gMsg.createdAt } }, db3)

/-! Listing service, GET /api/conversations (lines 164-192). -/

/-- Case-insensitive character comparison, the effect of the regex option i
(ASCII case folding, as Char.toLower provides). -/
def lcEq (a b : Char) : Bool := a.toLower == b.toLower

/-- One pattern character against one subject character under option i: the
metacharacter dot matches any character except a newline, every other
character of the modelled fragment matches literally. -/
def matchTok (t c : Char) : Bool :=
  if t == '.' then c != '\n' else lcEq t c

/-- Match the whole pattern starting at the head of the subject. -/
def matchHere : List Char → List Char → Bool
  | [], _ => true
  | _ :: _, [] => false
  | t :: ts, c :: cs => matchTok t c && matchHere ts cs

/-- Unanchored regex search, the semantics of the Mongo filter
{ $regex: keyword, $options: i } (line 170) for the fragment of patterns
built from literal characters and the dot wildcard: the pattern may match at
any position of the subject. -/
def regexSearchI : List Char → List Char → Bool
  | p, [] => matchHere p []
  | p, c :: cs => matchHere p (c :: cs) || regexSearchI p cs

/-- The find filter of the listing (lines 169-170): isDeleted false, and when
the keyword is non-empty its regex must match the title. -/
def convMatches (keyword : String) (c : Conv) : Bool :=
  !c.isDeleted && (keyword == "" || regexSearchI keyword.data c.title.data)

def filteredConvs (db : DB) (keyword : String) : List Conv :=
  db.conversations.filter (convMatches keyword)

/-- Descending updatedAt, the sort of line 174. -/
def convGe (a b : Conv) : Prop := b.updatedAt ≤ a.updatedAt

instance : DecidableRel convGe := fun a b => Nat.decLe b.updatedAt a.updatedAt

instance : IsTotal Conv convGe := ⟨fun a b => Nat.le_total b.updatedAt a.updatedAt⟩

instance : IsTrans Conv convGe := ⟨fun _ _ _ h h2 => Nat.le_trans h2 h⟩

def sortConvsDesc (cs : List Conv) : List Conv := List.insertionSort convGe cs

/-- The value of `parseInt(req.query.page) || 1`: the query parameter arrives
as `none` when absent or unparseable (NaN), otherwise as the parsed integer;
zero is falsy and also falls to the default. -/
def effPage (q : Option Int) : Int :=
  match q with
  | none => 1
  | some n => if n = 0 then 1 else n

/-- The value of `Math.min(parseInt(req.query.limit) || 20, 100)`. -/
def effLimit (q : Option Int) : Int :=
  min (match q with
       | none => 20
       | some n => if n = 0 then 20 else n) 100

/-- One row of the listing response: the selected fields plus the enrichment
count (lines 177-182). -/
structure ConvView where
  sessionId : String
  title : String
  updatedAt : Nat
  messageCount : Nat
  deriving Repr, DecidableEq

structure PaginationView where
  page : Int
  limit : Int
  total : Nat
  hasMore : Bool
  deriving Repr, DecidableEq

structure ListResult where
  list : List ConvView
  pagination : PaginationView
  deriving Repr, DecidableEq

/-- Message.countDocuments({ sessionId }) (line 180). -/
def messageCountOf (db : DB) (sid : String) : Nat :=
  (db.messages.filter (fun m => m.sessionId == sid)).length

/-- GET /api/conversations (lines 164-192).  The skip and take amounts are
non-negative in every run the store accepts (a negative skip is rejected by
Mongo), so the embedding reads them through Int.toNat and the theorems are
stated on that domain. -/
def listConversations (db : DB) (pageQ limitQ : Option Int) (keyword : String) : ListResult :=
  let page := effPage pageQ
  let limit := effLimit limitQ
  let fl := filteredConvs db keyword
  let total := fl.length
  let pageList := ((sortConvsDesc fl).drop ((page - 1) * limit).toNat).take limit.toNat
  { list := pageList.map (fun c =>
      { sessionId := c.sessionId, title := c.title, updatedAt := c.updatedAt,
        messageCount := messageCountOf db c.sessionId }),
    pagination := { page := page, limit := limit, total := total,
                    hasMore := decide (page * limit < (total : Int)) } }

/-! Thread service, GET /api/conversations/:sessionId/messages
(lines 195-214). -/

/-- The server base address prepended to stored paths (lines 98 and 208 use
the configured port; its value is irrelevant to every claim). -/
def baseUrl : String := "http://localhost:3001"

structure AttView where
  fileId : String
  fileName : String
  url : String
  deriving Repr, DecidableEq

structure MsgView where
  messageId : Nat
  role : String
  content : String
  attachments : List AttView
  createdAt : Nat
  deriving Repr, DecidableEq

/-- populate resolves each stored attachment id against the Attachment
collection; ids with no document are dropped from the array.  A resolved
attachment is projected to { fileId, fileName, url } (lines 205-209). -/
def resolveAtt (db : DB) (aid : String) : Option AttView :=
  (db.attachments.find? (fun a => a.id == aid)).map
    (fun a => { fileId := a.id, fileName := a.fileName, url := baseUrl ++ a.storagePath })

def resolveMsg (db : DB) (m : Msg) : MsgView :=
  { messageId := m.id, role := m.role, content := m.content,
    attachments := m.attachments.filterMap (resolveAtt db), createdAt := m.createdAt }

/-- Ascending createdAt, the sort of line 198. -/
def msgLe (a b : Msg) : Prop := a.createdAt ≤ b.createdAt

instance : DecidableRel msgLe := fun a b => Nat.decLe a.createdAt b.createdAt

instance : IsTotal Msg msgLe := ⟨fun a b => Nat.le_total a.createdAt b.createdAt⟩

instance : IsTrans Msg msgLe := ⟨fun _ _ _ h h2 => Nat.le_trans h h2⟩

/-- The stored messages of one session in retrieval order: filter by
sessionId, sort ascending by createdAt (ties keep insertion order, the
stability the store provides for this data). -/
def threadMsgs (db : DB) (sid : String) : List Msg :=
  List.insertionSort msgLe (db.messages.filter (fun m => m.sessionId == sid))

/-- GET /api/conversations/:sessionId/messages. -/
def getThread (db : DB) (sid : String) : List MsgView :=
  (threadMsgs db sid).map (resolveMsg db)

/-! Upload endpoint, POST /api/upload (lines 78-105), and the operation-level
view of the whole system used by the orphan invariant. -/

structure FileInfo where
  originalname : String
  mimetype : String
  size : Nat
  filename : String
  deriving Repr, DecidableEq

/-- The multer fileFilter allowlist (line 69). -/
def allowedTypes : List String :=
  ["image/jpeg", "image/png", "image/gif", "application/pdf", "application/msword",
   "application/vnd.openxmlformats-officedocument.wordprocessingml.document", "text/plain"]

structure UploadData where
  fileId : String
  fileName : String
  fileType : String
  fileSize : Nat
  url : String
  deriving Repr, DecidableEq

/-- POST /api/upload: Attachment.create sets sessionId, fileName, fileType,
fileSize and filePath and nothing else — in particular no messageId (lines
82-88).  A file rejected by the fileFilter never reaches the handler and
creates nothing. -/
def uploadHandler (db : DB) (file : Option FileInfo) (sessionId : Option String)
    (newId : String) (now : Nat) : ApiResp UploadData × DB :=
  match file with
  | none => ({ status := 400, code := 400, msg := "请上传文件", data := none }, db)
  | some f =>
    if allowedTypes.contains f.mimetype then
      let a : AttachmentRec :=
        { id := newId, sessionId := sessionId, messageId := none,
          fileName := f.originalname, fileType := f.mimetype, fileSize := f.size,
          storagePath := "/uploads/" ++ f.filename, uploadedAt := now }
      ({ status := 200, code := 0, msg := "上传成功",
         data := some { fileId := a.id, fileName := a.fileName, fileType := a.fileType,
                        fileSize := a.fileSize, url := baseUrl ++ a.storagePath } },
       { db with attachments := db.attachments ++ [a] })
    else
      ({ status := 415, code := 415, msg := "不支持的文件格式", data := none }, db)

/-- Every request the server accepts, with its external inputs.  The two GET
endpoints only read the store. -/
inductive Op where
  | upload : Option FileInfo → Option String → String → Nat → Op
  | chat : String → String → List String → Except Unit GeminiData → Nat → Nat → Nat → Op
  | listConvs : Option Int → Option Int → String → Op
  | thread : String → Op

def applyOp (db : DB) : Op → DB
  | .upload f s i t => (uploadHandler db f s i t).2
  | .chat s m a g t1 t2 t3 => (chatHandler db s m a g t1 t2 t3).2
  | .listConvs _ _ _ => db
  | .thread _ => db

/-- The store after an arbitrary request history from the empty store. -/
def runOps (ops : List Op) : DB := ops.foldl applyOp initDB

/-! Case-insensitive substring matching, the reading the specification gives
of the keyword filter.  It is written in the same recursion shape as the
regex search so the two can be compared. -/

def lowerPref : List Char → List Char → Bool
  | [], _ => true
  | _ :: _, [] => false
  | a :: as, b :: bs => lcEq a b && lowerPref as bs

/-- Case-insensitive substring test: some suffix of the subject starts with
the keyword up to case. -/
def icSubstr : List Char → List Char → Bool
  | p, [] => p.isEmpty
  | p, c :: cs => lowerPref p (c :: cs) || icSubstr p cs

/-- The characters that carry meaning in a regular expression; a keyword free
of them is matched literally by the regex filter. -/
def regexMeta : List Char :=
  ['.', '^', '$', '*', '+', '?', '(', ')', '[', ']', '{', '}', '|', '\\']

end ChatBackend

namespace ChatBackend

/-- C3: a sendTurn with empty (or absent, which is equally falsy) sessionId
or message fails with a ValidationError, HTTP status 400 and envelope code
400, and leaves the store untouched: no Message, no Gateway effect, no
Conversation upsert. -/
theorem chat_validation_no_side_effects (db : DB) (sid msg : String)
    (atts : List String) (gw : Except Unit GeminiData) (t1 t2 t3 : Nat)
    (h : sid = "" ∨ msg = "") :
    chatHandler db sid msg atts gw t1 t2 t3 =
      ({ status := 400, code := 400, msg := "sessionId 和 message 必填", data := none }, db) := by
  unfold chatHandler
  rw [if_pos h]

/-- Witness for C3 at a concrete request with an empty sessionId. -/
theorem chat_validation_no_side_effects_witness :
    ("" = "" ∨ "hello" = "") ∧
      chatHandler initDB "" "hello" [] (Except.error ()) 0 1 2 =
        ({ status := 400, code := 400, msg := "sessionId 和 message 必填", data := none }, initDB) :=
  ⟨Or.inl rfl, chat_validation_no_side_effects initDB "" "hello" [] (Except.error ()) 0 1 2 (Or.inl rfl)⟩

/-- C4 counterexample: the attachment id list is not stored as-is.  On the
request list ["", "a1"] the persisted user Message carries ["a1"]: the
filter(Boolean) at line 118 drops the falsy empty id. -/
theorem chat_attachments_not_as_is_cex :
    ((chatHandler initDB "s" "hi" ["", "a1"] (Except.error ()) 0 1 2).2.messages.map
        Msg.attachments) = [["a1"]]
      ∧ [("a1" : String)] ≠ [("" : String), "a1"] := by
  exact ⟨rfl, by decide⟩

/-- C4 amended: the persisted user Message stores the given attachment id
list with falsy (empty) entries removed by filter(Boolean); the surviving
ids are stored unmodified with no existence check against the Attachment
collection (the store content is arbitrary here and the ids need not occur
in it). -/
theorem chat_user_msg_attachments (db : DB) (sid msg : String)
    (atts : List String) (gw : Except Unit GeminiData) (t1 t2 t3 : Nat)
    (hs : sid ≠ "") (hm : msg ≠ "") :
    (chatHandler db sid msg atts gw t1 t2 t3).2.messages[db.messages.length]? =
      some { id := db.nextId, sessionId := sid, role := "user", content := msg,
             attachments := atts.filter (fun a => a != ""), senderAi := none,
             createdAt := t1 } := by
  unfold chatHandler
  rw [if_neg (by simp [hs, hm])]
  cases hg : gatewayText gw with
  | error e =>
    simp only [mkUserMsg]
    rw [List.getElem?_concat_length]
  | ok text =>
    simp only [mkUserMsg]
    rw [List.append_assoc]
    rw [List.getElem?_append_right (Nat.le_refl _)]
    simp

/-- Witness for C4's amended theorem: a request carrying one dangling id. -/
theorem chat_user_msg_attachments_witness :
    ("s" : String) ≠ "" ∧ ("hi" : String) ≠ "" ∧
      (chatHandler initDB "s" "hi" ["deadbeef"] (Except.error ()) 0 1 2).2.messages[(0 : Nat)]? =
        some { id := 0, sessionId := "s", role := "user", content := "hi",
               attachments := ["deadbeef"], senderAi := none, createdAt := 0 } :=
  ⟨by decide, by decide,
    chat_user_msg_attachments initDB "s" "hi" ["deadbeef"] (Except.error ()) 0 1 2
      (by decide) (by decide)⟩

end ChatBackend

namespace ChatBackend

/-- A stored message of the session appears (resolved) in the thread view. -/
theorem resolveMsg_mem_getThread {db : DB} {sid : String} {m : Msg}
    (hm : m ∈ db.messages) (hsid : m.sessionId = sid) :
    resolveMsg db m ∈ getThread db sid := by
  unfold getThread threadMsgs
  exact List.mem_map_of_mem (resolveMsg db)
    (((List.perm_insertionSort msgLe _).mem_iff).mpr
      (List.mem_filter.mpr ⟨hm, by simp [hsid]⟩))

/-- C1: when the Gateway call fails (transport error or unreadable body), the
turn answers HTTP 500 with envelope code 500 and no data, performs no
Conversation upsert, appends exactly the already-persisted user Message and
nothing else, and that user Message remains retrievable through the Thread
Service. -/
theorem chat_gateway_failure_semantics (db : DB) (sid msg : String)
    (atts : List String) (gw : Except Unit GeminiData) (t1 t2 t3 : Nat)
    (hs : sid ≠ "") (hm : msg ≠ "") (hfail : gatewayText gw = Except.error ()) :
    (chatHandler db sid msg atts gw t1 t2 t3).1.status = 500 ∧
    (chatHandler db sid msg atts gw t1 t2 t3).1.code = 500 ∧
    (chatHandler db sid msg atts gw t1 t2 t3).1.data = none ∧
    (chatHandler db sid msg atts gw t1 t2 t3).2.conversations = db.conversations ∧
    (chatHandler db sid msg atts gw t1 t2 t3).2.messages =
      db.messages ++ [mkUserMsg db sid msg atts t1] ∧
    (∃ v ∈ getThread (chatHandler db sid msg atts gw t1 t2 t3).2 sid,
       v.messageId = db.nextId ∧ v.role = "user" ∧ v.content = msg) := by
  have key : chatHandler db sid msg atts gw t1 t2 t3 =
      ({ status := 500, code := 500, msg := "Gemini3 服务异常", data := none },
       { db with messages := db.messages ++ [mkUserMsg db sid msg atts t1],
                 nextId := db.nextId + 1 }) := by
    unfold chatHandler
    rw [if_neg (by simp [hs, hm])]
    simp only [hfail]
  rw [key]
  refine ⟨rfl, rfl, rfl, rfl, rfl, ?_⟩
  refine ⟨resolveMsg
    { db with messages := db.messages ++ [mkUserMsg db sid msg atts t1],
              nextId := db.nextId + 1 } (mkUserMsg db sid msg atts t1), ?_, rfl, rfl, rfl⟩
  exact resolveMsg_mem_getThread (List.mem_append_right _ (List.mem_singleton.mpr rfl)) rfl

/-- Witness for C1: a concrete failing turn on the empty store. -/
theorem chat_gateway_failure_semantics_witness :
    (("s" : String) ≠ "") ∧ (("hi" : String) ≠ "") ∧
    gatewayText (Except.error ()) = Except.error () ∧
    ((chatHandler initDB "s" "hi" [] (Except.error ()) 0 1 2).1.status = 500 ∧
     (chatHandler initDB "s" "hi" [] (Except.error ()) 0 1 2).1.code = 500 ∧
     (chatHandler initDB "s" "hi" [] (Except.error ()) 0 1 2).1.data = none ∧
     (chatHandler initDB "s" "hi" [] (Except.error ()) 0 1 2).2.conversations =
       initDB.conversations ∧
     (chatHandler initDB "s" "hi" [] (Except.error ()) 0 1 2).2.messages =
       initDB.messages ++ [mkUserMsg initDB "s" "hi" [] 0] ∧
     (∃ v ∈ getThread (chatHandler initDB "s" "hi" [] (Except.error ()) 0 1 2).2 "s",
        v.messageId = initDB.nextId ∧ v.role = "user" ∧ v.content = "hi")) :=
  ⟨by decide, by decide, rfl,
    chat_gateway_failure_semantics initDB "s" "hi" [] (Except.error ()) 0 1 2
      (by decide) (by decide) rfl⟩

end ChatBackend

namespace ChatBackend

/-- Updating the first matching Conversation in place does not change the
sequence of session ids. -/
theorem setConvFirst_map_sessionId (sid ti : String) (now : Nat) :
    ∀ cs : List Conv, (setConvFirst sid ti now cs).map Conv.sessionId = cs.map Conv.sessionId
  | [] => rfl
  | c :: cs => by
    unfold setConvFirst
    by_cases h : c.sessionId = sid
    · simp [h]
    · simp [h, setConvFirst_map_sessionId sid ti now cs]

/-- The session ids after an upsert: unchanged when the key was present,
extended by the key when it was not. -/
theorem upsertConv_map_sessionId (cs : List Conv) (sid ti : String) (now : Nat) :
    (upsertConv cs sid ti now).map Conv.sessionId =
      if cs.any (fun c => c.sessionId == sid) then cs.map Conv.sessionId
      else cs.map Conv.sessionId ++ [sid] := by
  unfold upsertConv
  by_cases h : cs.any (fun c => c.sessionId == sid)
  · simp [h, setConvFirst_map_sessionId]
  · simp [h]

/-- The unique-index invariant on sessionId survives an upsert. -/
theorem upsertConv_nodup {cs : List Conv} {sid : String} (ti : String) (now : Nat)
    (hnd : (cs.map Conv.sessionId).Nodup) :
    ((upsertConv cs sid ti now).map Conv.sessionId).Nodup := by
  rw [upsertConv_map_sessionId]
  by_cases h : cs.any (fun c => c.sessionId == sid)
  · simpa [h] using hnd
  · have hnm : sid ∉ cs.map Conv.sessionId := by
      intro hmem
      obtain ⟨c, hc, he⟩ := List.mem_map.mp hmem
      exact absurd (List.any_eq_true.mpr ⟨c, hc, by simp [he]⟩) h
    simp [h, List.nodup_append, hnd, hnm]

/-- After an upsert there is exactly one Conversation carrying the key,
provided the unique index held before. -/
theorem upsertConv_count_one {cs : List Conv} {sid : String} (ti : String) (now : Nat)
    (hnd : (cs.map Conv.sessionId).Nodup) :
    ((upsertConv cs sid ti now).map Conv.sessionId).count sid = 1 := by
  rw [upsertConv_map_sessionId]
  by_cases h : cs.any (fun c => c.sessionId == sid)
  · obtain ⟨c, hc, he⟩ := List.any_eq_true.mp h
    have hmem : sid ∈ cs.map Conv.sessionId :=
      List.mem_map.mpr ⟨c, hc, by simpa using he⟩
    simp [h, List.count_eq_one_of_mem hnd hmem]
  · have hnm : sid ∉ cs.map Conv.sessionId := by
      intro hmem
      obtain ⟨c, hc, he⟩ := List.mem_map.mp hmem
      exact absurd (List.any_eq_true.mpr ⟨c, hc, by simp [he]⟩) h
    simp [h, List.count_append, List.count_eq_zero_of_not_mem hnm]

/-- Inside setConvFirst, under the unique index, every document carrying the
key has received the new title and timestamp. -/
theorem mem_setConvFirst_updated {sid ti : String} {now : Nat} :
    ∀ {cs : List Conv}, (cs.map Conv.sessionId).Nodup →
      ∀ c ∈ setConvFirst sid ti now cs, c.sessionId = sid →
        c.title = ti ∧ c.updatedAt = now := by
  intro cs
  induction cs with
  | nil => intro _ c hc; simp [setConvFirst] at hc
  | cons d ds ih =>
    intro hnd c hc hcs
    rw [List.map_cons] at hnd
    have hparts := List.nodup_cons.mp hnd
    unfold setConvFirst at hc
    by_cases hd : d.sessionId = sid
    · rw [if_pos hd] at hc
      rcases List.mem_cons.mp hc with h | h
      · subst h; exact ⟨rfl, rfl⟩
      · exact absurd (hd ▸ hcs ▸ List.mem_map_of_mem Conv.sessionId h) hparts.1
    · rw [if_neg hd] at hc
      rcases List.mem_cons.mp hc with h | h
      · exact absurd (h ▸ hcs) hd
      · exact ih hparts.2 c h hcs

/-- After the upsert, under the unique index, every Conversation carrying the
key has the new title and timestamp. -/
theorem mem_upsertConv_updated {cs : List Conv} {sid : String} (ti : String) (now : Nat)
    (hnd : (cs.map Conv.sessionId).Nodup) :
    ∀ c ∈ upsertConv cs sid ti now, c.sessionId = sid →
      c.title = ti ∧ c.updatedAt = now := by
  intro c hc hcs
  unfold upsertConv at hc
  by_cases h : cs.any (fun c => c.sessionId == sid)
  · rw [if_pos h] at hc
    exact mem_setConvFirst_updated hnd c hc hcs
  · rw [if_neg h] at hc
    rcases List.mem_append.mp hc with hmem | hmem
    · exact absurd (List.any_eq_true.mpr ⟨c, hmem, by simp [hcs]⟩) h
    · rw [List.mem_singleton.mp hmem]
      exact ⟨rfl, rfl⟩

/-- On a successful turn the Conversation collection is exactly the upsert of
the previous collection with the 30-character title prefix and the upsert
timestamp. -/
theorem chat_success_conversations (db : DB) (sid msg : String) (atts : List String)
    (gw : Except Unit GeminiData) (txt : String) (t1 t2 t3 : Nat)
    (hs : sid ≠ "") (hm : msg ≠ "") (hok : gatewayText gw = Except.ok txt) :
    (chatHandler db sid msg atts gw t1 t2 t3).2.conversations =
      upsertConv db.conversations sid (msg.take 30) t3 := by
  unfold chatHandler
  rw [if_neg (by simp [hs, hm])]
  simp only [hok]

/-- C2: a successful turn upserts exactly one Conversation keyed by the
sessionId (creating it if absent), sets updatedAt to the upsert time and
unconditionally overwrites title with the first 30 characters of the user
text; consequently a second successful turn leaves the title equal to the
second message's 30-character prefix. -/
theorem chat_upsert_title (db : DB) (sid msg : String) (atts : List String)
    (gw : Except Unit GeminiData) (txt : String) (t1 t2 t3 : Nat)
    (hs : sid ≠ "") (hm : msg ≠ "") (hok : gatewayText gw = Except.ok txt)
    (hnd : (db.conversations.map Conv.sessionId).Nodup) :
    (((chatHandler db sid msg atts gw t1 t2 t3).2.conversations.map Conv.sessionId).count sid
        = 1)
    ∧ (∀ c ∈ (chatHandler db sid msg atts gw t1 t2 t3).2.conversations,
         c.sessionId = sid → c.title = msg.take 30 ∧ c.updatedAt = t3)
    ∧ ((chatHandler db sid msg atts gw t1 t2 t3).2.conversations.map Conv.sessionId).Nodup
    ∧ (∀ msg2 : String, ∀ atts2 : List String, ∀ gw2 : Except Unit GeminiData,
       ∀ txt2 : String, ∀ u1 u2 u3 : Nat, msg2 ≠ "" → gatewayText gw2 = Except.ok txt2 →
         ∀ c ∈ (chatHandler (chatHandler db sid msg atts gw t1 t2 t3).2 sid msg2 atts2 gw2
                  u1 u2 u3).2.conversations,
           c.sessionId = sid → c.title = msg2.take 30) := by
  rw [chat_success_conversations db sid msg atts gw txt t1 t2 t3 hs hm hok]
  refine ⟨upsertConv_count_one _ _ hnd, mem_upsertConv_updated _ _ hnd,
          upsertConv_nodup _ _ hnd, ?_⟩
  intro msg2 atts2 gw2 txt2 u1 u2 u3 hm2 hok2 c hc hcs
  rw [chat_success_conversations _ sid msg2 atts2 gw2 txt2 u1 u2 u3 hs hm2 hok2] at hc
  rw [chat_success_conversations db sid msg atts gw txt t1 t2 t3 hs hm hok] at hc
  exact (mem_upsertConv_updated _ _ (upsertConv_nodup _ _ hnd) c hc hcs).1

/-- Witness for C2: a first turn on the empty store; the single created
Conversation carries the key. -/
theorem chat_upsert_title_witness :
    (("s" : String) ≠ "") ∧ (("hello" : String) ≠ "") ∧
    gatewayText (Except.ok sampleOkBody) = Except.ok "ok" ∧
    (initDB.conversations.map Conv.sessionId).Nodup ∧
    (((chatHandler initDB "s" "hello" [] (Except.ok sampleOkBody) 0 1 2).2.conversations.map
          Conv.sessionId).count "s" = 1) :=
  ⟨by decide, by decide, rfl, List.nodup_nil,
    (chat_upsert_title initDB "s" "hello" [] (Except.ok sampleOkBody) "ok" 0 1 2
      (by decide) (by decide) rfl List.nodup_nil).1⟩

end ChatBackend

namespace ChatBackend

/-- C9: when the provider body is syntactically valid but its reply text is
empty (absent text field or empty string, both falsy), the turn substitutes
the fixed placeholder — it is both returned and persisted as the reply
content; a transport or parsing failure instead yields HTTP 500 with
envelope code 500 (the ExternalServiceError). -/
theorem gateway_empty_reply_placeholder (db : DB) (sid msg : String)
    (atts : List String) (t1 t2 t3 : Nat) (d : GeminiData)
    (c : GeminiCandidate) (ct : GeminiContent) (p : GeminiPart)
    (cs2 : List GeminiCandidate) (ps2 : List GeminiPart)
    (hs : sid ≠ "") (hm : msg ≠ "")
    (hc : d.candidates = some (c :: cs2)) (hct : c.content = some ct)
    (hp : ct.parts = some (p :: ps2)) (ht : p.text = none ∨ p.text = some "") :
    (∃ dd, (chatHandler db sid msg atts (Except.ok d) t1 t2 t3).1.data = some dd ∧
       dd.content = emptyReplyPlaceholder)
    ∧ (∃ m ∈ (chatHandler db sid msg atts (Except.ok d) t1 t2 t3).2.messages,
         m.role = "gemini3" ∧ m.content = emptyReplyPlaceholder)
    ∧ (∀ gw2 : Except Unit GeminiData, gatewayText gw2 = Except.error () →
         (chatHandler db sid msg atts gw2 t1 t2 t3).1.status = 500 ∧
         (chatHandler db sid msg atts gw2 t1 t2 t3).1.code = 500) := by
  have hext : gatewayText (Except.ok d) = Except.ok emptyReplyPlaceholder := by
    simp only [gatewayText, extractGeminiText, hc, hct, hp, List.head?]
    rcases ht with h | h <;> simp [h]
  refine ⟨?_, ?_, ?_⟩
  · unfold chatHandler
    rw [if_neg (by simp [hs, hm])]
    simp only [hext]
    exact ⟨_, rfl, rfl⟩
  · unfold chatHandler
    rw [if_neg (by simp [hs, hm])]
    simp only [hext]
    exact ⟨_, List.mem_append_right _ (List.mem_singleton.mpr rfl), rfl, rfl⟩
  · intro gw2 hfail
    unfold chatHandler
    rw [if_neg (by simp [hs, hm]), hfail]
    exact ⟨rfl, rfl⟩

/-- Witness for C9: a provider body whose single part carries an empty
string; the returned reply content is the placeholder. -/
theorem gateway_empty_reply_placeholder_witness :
    (("s" : String) ≠ "") ∧ (("hi" : String) ≠ "") ∧
    sampleEmptyBody.candidates = some [⟨some ⟨some [⟨some ""⟩]⟩⟩] ∧
    (⟨some ⟨some [⟨some ""⟩]⟩⟩ : GeminiCandidate).content = some ⟨some [⟨some ""⟩]⟩ ∧
    (⟨some [⟨some ""⟩]⟩ : GeminiContent).parts = some [⟨some ""⟩] ∧
    ((⟨some ""⟩ : GeminiPart).text = none ∨ (⟨some ""⟩ : GeminiPart).text = some "") ∧
    (∃ dd, (chatHandler initDB "s" "hi" [] (Except.ok sampleEmptyBody) 0 1 2).1.data = some dd ∧
       dd.content = emptyReplyPlaceholder) :=
  ⟨by decide, by decide, rfl, rfl, rfl, Or.inr rfl,
    (gateway_empty_reply_placeholder initDB "s" "hi" [] 0 1 2 sampleEmptyBody
      ⟨some ⟨some [⟨some ""⟩]⟩⟩ ⟨some [⟨some ""⟩]⟩ ⟨some ""⟩ [] []
      (by decide) (by decide) rfl rfl rfl (Or.inr rfl)).1⟩

/-- C6: the pagination object reports as total the filtered count ignoring
pagination, and hasMore holds exactly when page times limit is below that
total. -/
theorem listConversations_pagination_shape (db : DB) (pageQ limitQ : Option Int)
    (keyword : String) :
    (listConversations db pageQ limitQ keyword).pagination.total
        = (filteredConvs db keyword).length
    ∧ ((listConversations db pageQ limitQ keyword).pagination.hasMore = true ↔
        effPage pageQ * effLimit limitQ < ((filteredConvs db keyword).length : Int)) := by
  constructor
  · rfl
  · unfold listConversations
    simp

/-- Arithmetic bridge: for a positive page and non-negative limit the skip
amount computed in Int coincides with the natural-number reading
(page - 1) * limit. -/
theorem toNat_pred_mul (a b : Int) (ha : 1 ≤ a) (hb : 0 ≤ b) :
    ((a - 1) * b).toNat = (a.toNat - 1) * b.toNat := by
  obtain ⟨n, rfl⟩ := Int.eq_ofNat_of_zero_le (le_trans zero_le_one ha)
  obtain ⟨m, rfl⟩ := Int.eq_ofNat_of_zero_le hb
  rw [show ((n : Int) - 1) = ((n - 1 : Nat) : Int) by omega]
  rw [← Nat.cast_mul, Int.toNat_natCast, Int.toNat_natCast, Int.toNat_natCast]

/-- C7: page defaults to 1 when absent, invalid or zero; limit defaults to 20
likewise and is clamped to 100; the reported page and limit are these
effective values; and the returned rows are the filtered conversations in
descending updatedAt order with the first (page - 1) * limit entries skipped
and at most limit entries taken. -/
theorem listConversations_paging (db : DB) (pageQ limitQ : Option Int) (keyword : String)
    (hp : 1 ≤ effPage pageQ) (hl : 0 ≤ effLimit limitQ) :
    (effPage none = 1 ∧ ∀ n : Int, effPage (some n) = if n = 0 then 1 else n)
    ∧ (effLimit none = 20 ∧ (∀ n : Int, effLimit (some n) = min (if n = 0 then 20 else n) 100)
        ∧ effLimit limitQ ≤ 100)
    ∧ (listConversations db pageQ limitQ keyword).pagination.page = effPage pageQ
    ∧ (listConversations db pageQ limitQ keyword).pagination.limit = effLimit limitQ
    ∧ ((effPage pageQ - 1) * effLimit limitQ).toNat
        = ((effPage pageQ).toNat - 1) * (effLimit limitQ).toNat
    ∧ (∃ s : List Conv, s.Perm (filteredConvs db keyword) ∧ List.Sorted convGe s ∧
        (listConversations db pageQ limitQ keyword).list =
          ((s.drop ((effPage pageQ - 1) * effLimit limitQ).toNat).take
              (effLimit limitQ).toNat).map
            (fun c => { sessionId := c.sessionId, title := c.title, updatedAt := c.updatedAt,
                        messageCount := messageCountOf db c.sessionId })) := by
  refine ⟨⟨rfl, fun n => rfl⟩, ⟨rfl, fun n => rfl, min_le_right _ _⟩, rfl, rfl,
          toNat_pred_mul _ _ hp hl, ?_⟩
  exact ⟨sortConvsDesc (filteredConvs db keyword),
         List.perm_insertionSort convGe _, List.sorted_insertionSort convGe _, rfl⟩

/-- Witness for C7 on an empty query over the empty store. -/
theorem listConversations_paging_witness :
    (1 ≤ effPage none) ∧ (0 ≤ effLimit none) ∧
    (listConversations initDB none none "").pagination.page = effPage none :=
  ⟨by decide, by decide,
    (listConversations_paging initDB none none "" (by decide) (by decide)).2.2.1⟩

end ChatBackend

namespace ChatBackend

/-- On a pattern free of the dot wildcard, anchored regex matching is
case-insensitive literal prefix matching. -/
theorem matchHere_eq_lowerPref : ∀ (p t : List Char), '.' ∉ p →
    matchHere p t = lowerPref p t
  | [], _, _ => rfl
  | _ :: _, [], _ => rfl
  | a :: as, c :: cs, h => by
    have ha : a ≠ '.' := fun he => h (he ▸ List.mem_cons_self a as)
    unfold matchHere lowerPref matchTok
    rw [if_neg (by simpa using ha)]
    rw [matchHere_eq_lowerPref as cs (fun hm => h (List.mem_cons_of_mem a hm))]

/-- On a pattern free of the dot wildcard, the unanchored regex search is
exactly the case-insensitive substring test. -/
theorem regexSearchI_eq_icSubstr : ∀ (p t : List Char), '.' ∉ p →
    regexSearchI p t = icSubstr p t
  | p, [], _ => by
    unfold regexSearchI icSubstr
    cases p <;> rfl
  | p, c :: cs, hp => by
    unfold regexSearchI icSubstr
    rw [matchHere_eq_lowerPref p (c :: cs) hp, regexSearchI_eq_icSubstr p cs hp]

/-- C5 counterexample: the keyword is spliced into the filter as a regular
expression, not matched literally.  Keyword "." returns the conversation
titled "abc" even though "." is not a case-insensitive substring of
"abc". -/
theorem keyword_regex_not_substring_cex :
    ((listConversations ⟨[⟨"s1", none, "abc", 0, 0, false⟩], [], [], 0⟩ none none ".").list.map
        ConvView.sessionId = ["s1"])
    ∧ icSubstr ".".data "abc".data = false := by
  exact ⟨rfl, rfl⟩

/-- C5 amended: the listing filter keeps exactly the conversations with
isDeleted false whose title matches the non-empty keyword interpreted as a
case-insensitive regular expression; for every keyword free of regex
metacharacters this coincides with case-insensitive substring search, but
not for keywords containing metacharacters (see the counterexample). -/
theorem keyword_filter_substring (db : DB) (keyword : String) (hne : keyword ≠ "")
    (hmeta : ∀ ch ∈ keyword.data, ch ∉ regexMeta) :
    ∀ c : Conv, c ∈ filteredConvs db keyword ↔
      (c ∈ db.conversations ∧ c.isDeleted = false ∧
        icSubstr keyword.data c.title.data = true) := by
  intro c
  have hdot : '.' ∉ keyword.data := fun hm => hmeta '.' hm (by decide)
  have hcm : convMatches keyword c = (!c.isDeleted && icSubstr keyword.data c.title.data) := by
    unfold convMatches
    rw [regexSearchI_eq_icSubstr keyword.data c.title.data hdot]
    rw [show (keyword == "") = false from beq_eq_false_iff_ne.mpr hne]
    rw [Bool.false_or]
  unfold filteredConvs
  rw [List.mem_filter, hcm]
  simp [and_assoc]

/-- Witness for C5's amended theorem: the conversation titled Project Plan is
kept for the lowercase keyword plan. -/
theorem keyword_filter_substring_witness :
    (("plan" : String) ≠ "") ∧ (∀ ch ∈ ("plan" : String).data, ch ∉ regexMeta) ∧
    ((⟨"s1", none, "Project Plan", 0, 0, false⟩ : Conv) ∈
        filteredConvs ⟨[⟨"s1", none, "Project Plan", 0, 0, false⟩], [], [], 0⟩ "plan" ↔
      ((⟨"s1", none, "Project Plan", 0, 0, false⟩ : Conv) ∈
          ([⟨"s1", none, "Project Plan", 0, 0, false⟩] : List Conv) ∧
        (false : Bool) = false ∧
        icSubstr ("plan" : String).data ("Project Plan" : String).data = true)) :=
  ⟨by decide, by decide,
    keyword_filter_substring ⟨[⟨"s1", none, "Project Plan", 0, 0, false⟩], [], [], 0⟩ "plan"
      (by decide) (by decide) ⟨"s1", none, "Project Plan", 0, 0, false⟩⟩

end ChatBackend

namespace ChatBackend

/-- On a successful turn the Message collection gains exactly the user
Message followed by the reply Message. -/
theorem chat_success_messages (db : DB) (sid msg : String) (atts : List String)
    (gw : Except Unit GeminiData) (txt : String) (t1 t2 t3 : Nat)
    (hs : sid ≠ "") (hm : msg ≠ "") (hok : gatewayText gw = Except.ok txt) :
    (chatHandler db sid msg atts gw t1 t2 t3).2.messages =
      (db.messages ++ [mkUserMsg db sid msg atts t1]) ++
        [{ id := db.nextId + 1, sessionId := sid, role := "gemini3", content := txt,
           attachments := [], senderAi := some "gemini-1.5-pro", createdAt := t2 }] := by
  unfold chatHandler
  rw [if_neg (by simp [hs, hm])]
  simp only [hok]

/-- C8: the thread view of a session is the resolved image of a permutation
of exactly the stored messages of that session, in non-decreasing createdAt
order; a session with no messages yields the empty list rather than an
error; each entry carries its attachment ids resolved against the Attachment
collection; and after a successful turn whose clock is monotone the resolved
user message occurs before its resolved reply. -/
theorem getThread_ordered (db : DB) (sid : String) :
    ((getThread db sid).map MsgView.createdAt).Pairwise (· ≤ ·)
    ∧ (∃ l : List Msg, l.Perm (db.messages.filter (fun m => m.sessionId == sid)) ∧
         getThread db sid = l.map (resolveMsg db))
    ∧ (∀ m ∈ db.messages, m.sessionId = sid → resolveMsg db m ∈ getThread db sid)
    ∧ (db.messages.filter (fun m => m.sessionId == sid) = [] → getThread db sid = [])
    ∧ (∀ m ∈ db.messages, m.sessionId = sid →
         (resolveMsg db m).attachments = m.attachments.filterMap (resolveAtt db))
    ∧ (∀ (msg : String) (atts : List String) (gw : Except Unit GeminiData)
         (txt : String) (t1 t2 t3 : Nat), sid ≠ "" → msg ≠ "" →
         gatewayText gw = Except.ok txt → t1 ≤ t2 →
         List.Sublist
           [resolveMsg (chatHandler db sid msg atts gw t1 t2 t3).2
              (mkUserMsg db sid msg atts t1),
            resolveMsg (chatHandler db sid msg atts gw t1 t2 t3).2
              { id := db.nextId + 1, sessionId := sid, role := "gemini3", content := txt,
                attachments := [], senderAi := some "gemini-1.5-pro", createdAt := t2 }]
           (getThread (chatHandler db sid msg atts gw t1 t2 t3).2 sid)) := by
  refine ⟨?_, ?_, ?_, ?_, ?_, ?_⟩
  · unfold getThread threadMsgs
    rw [List.map_map, List.pairwise_map]
    exact List.sorted_insertionSort msgLe _
  · exact ⟨List.insertionSort msgLe (db.messages.filter (fun m => m.sessionId == sid)),
           List.perm_insertionSort msgLe _, rfl⟩
  · exact fun m hm hsid => resolveMsg_mem_getThread hm hsid
  · intro h
    unfold getThread threadMsgs
    rw [h]
    rfl
  · exact fun m _ _ => rfl
  · intro msg atts gw txt t1 t2 t3 hs hm hok h12
    have hmsgs := chat_success_messages db sid msg atts gw txt t1 t2 t3 hs hm hok
    unfold getThread threadMsgs
    rw [hmsgs]
    have heq : List.filter (fun m => m.sessionId == sid)
        ((db.messages ++ [mkUserMsg db sid msg atts t1]) ++
          [{ id := db.nextId + 1, sessionId := sid, role := "gemini3", content := txt,
             attachments := [], senderAi := some "gemini-1.5-pro", createdAt := t2 }]) =
        db.messages.filter (fun m => m.sessionId == sid) ++
          [mkUserMsg db sid msg atts t1,
           { id := db.nextId + 1, sessionId := sid, role := "gemini3", content := txt,
             attachments := [], senderAi := some "gemini-1.5-pro", createdAt := t2 }] := by
      rw [List.filter_append, List.filter_append]
      simp [mkUserMsg]
    have hpair : List.Sublist
        [mkUserMsg db sid msg atts t1,
         { id := db.nextId + 1, sessionId := sid, role := "gemini3", content := txt,
           attachments := [], senderAi := some "gemini-1.5-pro", createdAt := t2 }]
        (List.insertionSort msgLe (List.filter (fun m => m.sessionId == sid)
          ((db.messages ++ [mkUserMsg db sid msg atts t1]) ++
            [{ id := db.nextId + 1, sessionId := sid, role := "gemini3", content := txt,
               attachments := [], senderAi := some "gemini-1.5-pro",
               createdAt := t2 }]))) := by
      refine List.pair_sublist_insertionSort (show msgLe _ _ from h12) ?_
      rw [heq]
      exact List.sublist_append_right _ _
    simpa using
      List.Sublist.map (resolveMsg (chatHandler db sid msg atts gw t1 t2 t3).2) hpair

/-- Witness for C8: a store holding one message of the session; the resolved
message appears in the thread. -/
theorem getThread_ordered_witness :
    ((⟨0, "s", "user", "hi", [], none, 5⟩ : Msg) ∈
       (⟨[], [⟨0, "s", "user", "hi", [], none, 5⟩], [], 1⟩ : DB).messages) ∧
    ((⟨0, "s", "user", "hi", [], none, 5⟩ : Msg).sessionId = "s") ∧
    resolveMsg ⟨[], [⟨0, "s", "user", "hi", [], none, 5⟩], [], 1⟩
        ⟨0, "s", "user", "hi", [], none, 5⟩ ∈
      getThread ⟨[], [⟨0, "s", "user", "hi", [], none, 5⟩], [], 1⟩ "s" :=
  ⟨List.mem_singleton.mpr rfl, rfl,
    (getThread_ordered ⟨[], [⟨0, "s", "user", "hi", [], none, 5⟩], [], 1⟩ "s").2.2.1
      ⟨0, "s", "user", "hi", [], none, 5⟩ (List.mem_singleton.mpr rfl) rfl⟩

/-- A single request never sets the messageId of any stored Attachment: the
upload handler creates the record with messageId absent, the chat handler
never touches the Attachment collection, and the two read endpoints write
nothing. -/
theorem applyOp_keeps_orphans (db : DB) (op : Op)
    (h : db.attachments.all (fun a => a.messageId == none) = true) :
    ((applyOp db op).attachments.all (fun a => a.messageId == none)) = true := by
  cases op with
  | upload f s i t =>
    cases f with
    | none => exact h
    | some fi =>
      by_cases hmime : allowedTypes.contains fi.mimetype
      · simp only [applyOp, uploadHandler]
        rw [if_pos hmime]
        simp [List.all_append, h]
      · simp only [applyOp, uploadHandler]
        rw [if_neg hmime]
        exact h
  | chat s m a g t1 t2 t3 =>
    have hatt : (chatHandler db s m a g t1 t2 t3).2.attachments = db.attachments := by
      unfold chatHandler
      by_cases hv : s = "" ∨ m = ""
      · rw [if_pos hv]
      · rw [if_neg hv]
        cases hg : gatewayText g <;> simp only [hg]
    simp only [applyOp]
    rw [hatt]
    exact h
  | listConvs p l k => exact h
  | thread s => exact h

/-- C10: over every request history from the empty store, every stored
Attachment still has no messageId — attachments permanently remain orphans,
referenced only through the attachments arrays of Messages. -/
theorem attachments_forever_orphaned (ops : List Op) :
    ((runOps ops).attachments.all (fun a => a.messageId == none)) = true := by
  suffices h : ∀ (ops2 : List Op) (db : DB),
      db.attachments.all (fun a => a.messageId == none) = true →
      ((ops2.foldl applyOp db).attachments.all (fun a => a.messageId == none)) = true by
    exact h ops initDB rfl
  intro ops2
  induction ops2 with
  | nil => exact fun db hdb => hdb
  | cons op rest ih =>
    exact fun db hdb => ih (applyOp db op) (applyOp_keeps_orphans db op hdb)

end ChatBackend
